import Mathlib

/-!
Shallow embedding of `src/VideoPlayer.cpp` (class `VideoPlayer`), a minimal
interactive video frame browser built on an external decoder (OpenCV
`cv::VideoCapture`).

The decoder is external to the repository; it is modelled abstractly, following
the collaborator interface of the specification (§6): `open(path)->ok`,
`readNext()->frame|fail`, `seekAbsolute(index)->ok`, `queryMetadata()`.
A `VideoFile` environment fixes, for one input file, whether opening succeeds,
the frame count and rate reported by the metadata query, and, for each internal
capture position, whether a read there succeeds and what image it delivers.
Images (`cv::Mat`) are opaque: `Option Nat`, `none` standing for an empty `Mat`.

Each operation returns its boolean result, the successor state, and the list of
decoder calls it performed, so that "performs no underlying seek or read" is a
statement about the trace.
-/

namespace VideoPlayerModel

/-- One call made to the decoder collaborator (`cv::VideoCapture`). -/
inductive CapCall where
  /-- Call of `cap.open(filename)`. -/
  | openFile : String → CapCall
  /-- Call of `cap.get(cv::CAP_PROP_FRAME_COUNT)`. -/
  | getFrameCount : CapCall
  /-- Call of `cap.get(cv::CAP_PROP_FPS)`. -/
  | getFps : CapCall
  /-- Call of `cap.read(currentFrame)`. -/
  | readCall : CapCall
  /-- Call of `cap.set(cv::CAP_PROP_POS_FRAMES, n)`. -/
  | setPosCall : Int → CapCall
deriving DecidableEq, Repr

/-- The input file as the decoder sees it: whether `cap.open` succeeds, the
metadata the capture reports, and, per internal capture position, whether a
read succeeds and which image it delivers. `frameCount` is the value of
`cap.get(cv::CAP_PROP_FRAME_COUNT)` after the `static_cast<int>`; `fps` is an
opaque stand-in for the `double` rate (no arithmetic is done on it). -/
structure VideoFile where
  openOK : Bool
  frameCount : Int
  fps : Nat
  readOK : Int → Bool
  content : Int → Nat

/-- State of the open `cv::VideoCapture`: whether it is opened and its internal
read position (`CAP_PROP_POS_FRAMES`). A successful `read` consumes the frame
at `pos` and advances `pos`; per the collaborator interface of the
specification (§6), a failed `readNext` delivers no frame and moves nothing. -/
structure Cap where
  opened : Bool
  pos : Int
deriving DecidableEq, Repr

/-- The fields of class `VideoPlayer`. `currentFrame : Option Nat` models the
`cv::Mat` (`none` = empty). -/
structure PlayerState where
  cap : Cap
  currentFrame : Option Nat
  windowName : String
  totalFrames : Int
  currentFrameNumber : Int
  fps : Nat
deriving DecidableEq, Repr

/-- The default constructor `VideoPlayer()`: window name set, counters zeroed,
rate 30, no capture opened, empty frame. -/
def initialState : PlayerState :=
  { cap := { opened := false, pos := 0 }
    currentFrame := none
    windowName := "Simple Video Player"
    totalFrames := 0
    currentFrameNumber := 0
    fps := 30 }

/-- Embeds `VideoPlayer::loadVideo` (src/VideoPlayer.cpp:21-46): open the capture; on
open failure return `false`. Otherwise store frame count, fps and position 0,
then read the first frame; on read failure return `false` (the stored metadata
and the open capture are kept), on success hold frame 0 and return `true`. -/
def loadVideo (env : VideoFile) (s : PlayerState) (filename : String) :
    Bool × PlayerState × List CapCall :=
  let cap1 : Cap := { opened := env.openOK, pos := 0 }
  if !env.openOK then
    (false, { s with cap := cap1 }, [CapCall.openFile filename])
  else
    let s1 : PlayerState :=
      { s with cap := cap1, totalFrames := env.frameCount, fps := env.fps,
               currentFrameNumber := 0 }
    let calls := [CapCall.openFile filename, CapCall.getFrameCount,
                  CapCall.getFps, CapCall.readCall]
    if env.readOK cap1.pos then
      (true, { s1 with cap := { cap1 with pos := cap1.pos + 1 },
                       currentFrame := some (env.content cap1.pos) }, calls)
    else
      (false, s1, calls)

/-- Embeds `VideoPlayer::nextFrame` (src/VideoPlayer.cpp:51-61): at or past the last
index, fail with no call; otherwise read the next sequential frame, and on
success increment the position. -/
def nextFrame (env : VideoFile) (s : PlayerState) :
    Bool × PlayerState × List CapCall :=
  if s.currentFrameNumber ≥ s.totalFrames - 1 then
    (false, s, [])
  else if env.readOK s.cap.pos then
    (true, { s with cap := { s.cap with pos := s.cap.pos + 1 },
                    currentFrame := some (env.content s.cap.pos),
                    currentFrameNumber := s.currentFrameNumber + 1 },
      [CapCall.readCall])
  else
    (false, s, [CapCall.readCall])

/-- Embeds `VideoPlayer::previousFrame` (src/VideoPlayer.cpp:66-78): at position ≤ 0,
fail with no call; otherwise decrement the position first, seek the capture to
it, then read — on read failure the decrement is already committed. -/
def previousFrame (env : VideoFile) (s : PlayerState) :
    Bool × PlayerState × List CapCall :=
  if s.currentFrameNumber ≤ 0 then
    (false, s, [])
  else
    let n := s.currentFrameNumber - 1
    let calls := [CapCall.setPosCall n, CapCall.readCall]
    if env.readOK n then
      (true, { s with cap := { s.cap with pos := n + 1 },
                      currentFrame := some (env.content n),
                      currentFrameNumber := n }, calls)
    else
      (false, { s with cap := { s.cap with pos := n },
                       currentFrameNumber := n }, calls)

/-- Embeds `VideoPlayer::seekToFrame` (src/VideoPlayer.cpp:83-95): out-of-range
targets fail with no call; otherwise seek the capture and read, committing the
position only on a successful read. -/
def seekToFrame (env : VideoFile) (s : PlayerState) (frameNumber : Int) :
    Bool × PlayerState × List CapCall :=
  if frameNumber < 0 ∨ frameNumber ≥ s.totalFrames then
    (false, s, [])
  else
    let calls := [CapCall.setPosCall frameNumber, CapCall.readCall]
    if env.readOK frameNumber then
      (true, { s with cap := { s.cap with pos := frameNumber + 1 },
                      currentFrame := some (env.content frameNumber),
                      currentFrameNumber := frameNumber }, calls)
    else
      (false, { s with cap := { s.cap with pos := frameNumber } }, calls)

/-- Embeds `VideoPlayer::getCurrentFrame` (src/VideoPlayer.cpp:227-229). -/
def getCurrentFrame (s : PlayerState) : Int :=
  s.currentFrameNumber

/-- Embeds `VideoPlayer::getTotalFrames` (src/VideoPlayer.cpp:234-236). -/
def getTotalFrames (s : PlayerState) : Int :=
  s.totalFrames

/-- Numeric value of a list of decimal digit characters. -/
def digitsVal (cs : List Char) : Nat :=
  cs.foldl (fun a c => 10 * a + (c.toNat - 48)) 0

/-- Modelled from the C++ standard library: `std::cin >> targetFrame` on an
`int` (src/VideoPlayer.cpp:197). Skips leading spaces, accepts an optional
sign followed by decimal digits; since C++11 a failed extraction stores 0 in
the target. Trailing non-digit characters are left unread and do not affect
the value. -/
def cinReadInt (input : String) : Int :=
  let cs := (input.toList).dropWhile (fun c => c = ' ')
  match cs with
  | '-' :: rest =>
      let ds := rest.takeWhile Char.isDigit
      if ds.isEmpty then 0 else -(digitsVal ds : Int)
  | '+' :: rest =>
      let ds := rest.takeWhile Char.isDigit
      if ds.isEmpty then 0 else (digitsVal ds : Int)
  | _ =>
      let ds := cs.takeWhile Char.isDigit
      if ds.isEmpty then 0 else (digitsVal ds : Int)

/-- The `'g'`/`'G'` branch of `VideoPlayer::startPlayback`
(src/VideoPlayer.cpp:193-206): read an integer from the console; if it lies in
`[1, totalFrames]`, seek to `value - 1`; otherwise report invalid and change
nothing. -/
def jumpToFramePrompt (env : VideoFile) (s : PlayerState) (input : String) :
    PlayerState × List CapCall :=
  let targetFrame := cinReadInt input
  if targetFrame ≥ 1 ∧ targetFrame ≤ s.totalFrames then
    let r := seekToFrame env s (targetFrame - 1)
    (r.2.1, r.2.2)
  else
    (s, [])

/-- A navigation request issued against the loaded player: the three
position-changing operations of the class. -/
inductive NavOp where
  | next : NavOp
  | prev : NavOp
  | seek : Int → NavOp
deriving DecidableEq, Repr

/-- State reached after one navigation call, its boolean result discarded. -/
def applyOp (env : VideoFile) (s : PlayerState) : NavOp → PlayerState
  | NavOp.next => (nextFrame env s).2.1
  | NavOp.prev => (previousFrame env s).2.1
  | NavOp.seek n => (seekToFrame env s n).2.1

/-- State reached after a finite sequence of navigation calls. -/
def runOps (env : VideoFile) (s : PlayerState) : List NavOp → PlayerState
  | [] => s
  | op :: rest => runOps env (applyOp env s op) rest

/-- Results of `n` consecutive `nextFrame` calls: the list of returned
booleans in order, and the final state. -/
def advanceResults (env : VideoFile) (s : PlayerState) : Nat → List Bool × PlayerState
  | 0 => ([], s)
  | n + 1 =>
      let r := nextFrame env s
      let rest := advanceResults env r.2.1 n
      (r.1 :: rest.1, rest.2)

/-- A 10-frame file on which every decoder call succeeds; frame `i` carries
content `i`. -/
def env10 : VideoFile :=
  { openOK := true
    frameCount := 10
    fps := 30
    readOK := fun _ => true
    content := fun i => i.toNat }

/-- A file that opens and reports 5 frames, but on which every read fails. -/
def envUnreadable : VideoFile :=
  { openOK := true
    frameCount := 5
    fps := 24
    readOK := fun _ => false
    content := fun _ => 0 }

/-- Player state after loading the all-good 10-frame file. -/
def s10 : PlayerState :=
  (loadVideo env10 initialState "ten.mp4").2.1

/-- A loaded player standing at position 3 of a 10-frame video, holding a
decoded image. -/
def sAt3 : PlayerState :=
  { cap := { opened := true, pos := 4 }
    currentFrame := some 7
    windowName := "Simple Video Player"
    totalFrames := 10
    currentFrameNumber := 3
    fps := 30 }

/-- C1 counterexample: on a file that opens but whose first frame is
unreadable, `loadVideo` returns failure, yet the capture is left open and
`totalFrames` has been overwritten from 0 to the reported count 5 — so the
state is neither unopened nor unchanged. -/
theorem C1_counterexample :
    (loadVideo envUnreadable initialState "clip.mp4").1 = false ∧
    (loadVideo envUnreadable initialState "clip.mp4").2.1.cap.opened = true ∧
    (loadVideo envUnreadable initialState "clip.mp4").2.1.totalFrames = 5 ∧
    initialState.totalFrames = 0 ∧ initialState.cap.opened = false := by
  refine ⟨rfl, rfl, rfl, rfl, rfl⟩

/-- C1 (amended): if the open itself fails, `loadVideo` returns failure and
only the (still unopened) capture field is touched. If the open succeeds but
the first frame cannot be read, `loadVideo` returns failure, yet the capture
remains open and `totalFrames`, `fps` and the position have already been
overwritten from the new metadata (the held frame is untouched). There is no
separate zero-frame check: whenever the open and the first read succeed, the
load succeeds, whatever frame count the metadata reports. -/
theorem C1_load_failure_state (env : VideoFile) (s : PlayerState) (fn : String) :
    (env.openOK = false →
      (loadVideo env s fn).1 = false ∧
      (loadVideo env s fn).2.1 = { s with cap := { opened := false, pos := 0 } }) ∧
    (env.openOK = true → env.readOK 0 = false →
      (loadVideo env s fn).1 = false ∧
      (loadVideo env s fn).2.1.cap.opened = true ∧
      (loadVideo env s fn).2.1.totalFrames = env.frameCount ∧
      (loadVideo env s fn).2.1.fps = env.fps ∧
      (loadVideo env s fn).2.1.currentFrameNumber = 0 ∧
      (loadVideo env s fn).2.1.currentFrame = s.currentFrame) ∧
    (env.openOK = true → env.readOK 0 = true → (loadVideo env s fn).1 = true) := by
  refine ⟨fun hopen => ?_, fun hopen hread => ?_, fun hopen hread => ?_⟩
  · simp [loadVideo, hopen]
  · simp [loadVideo, hopen, hread]
  · simp [loadVideo, hopen, hread]

/-- C1 witness at concrete inputs: the unreadable-first-frame file. -/
theorem C1_load_failure_state_witness :
    (loadVideo envUnreadable initialState "clip.mp4").1 = false ∧
    (loadVideo envUnreadable initialState "clip.mp4").2.1.totalFrames =
      envUnreadable.frameCount :=
  ⟨((C1_load_failure_state envUnreadable initialState "clip.mp4").2.1 rfl rfl).1,
   ((C1_load_failure_state envUnreadable initialState "clip.mp4").2.1 rfl rfl).2.2.1⟩

/-- C2: from a positive position, when the read of frame `p-1` fails,
`previousFrame` returns failure but the decrement was already committed: the
position afterwards is `p-1` while the held decoded frame is unchanged, so the
two are inconsistent. -/
theorem C2_retreat_commits_decrement (env : VideoFile) (s : PlayerState)
    (hp : 0 < s.currentFrameNumber)
    (hr : env.readOK (s.currentFrameNumber - 1) = false) :
    (previousFrame env s).1 = false ∧
    (previousFrame env s).2.1.currentFrameNumber = s.currentFrameNumber - 1 ∧
    (previousFrame env s).2.1.currentFrame = s.currentFrame := by
  have h0 : ¬ s.currentFrameNumber ≤ 0 := by omega
  simp [previousFrame, h0, hr]

/-- C2 witness: position 3 on an all-reads-fail capture. -/
theorem C2_retreat_commits_decrement_witness :
    (previousFrame envUnreadable sAt3).1 = false ∧
    (previousFrame envUnreadable sAt3).2.1.currentFrameNumber =
      sAt3.currentFrameNumber - 1 ∧
    (previousFrame envUnreadable sAt3).2.1.currentFrame = sAt3.currentFrame :=
  C2_retreat_commits_decrement envUnreadable sAt3 (by decide) (by decide)

/-- C3: whenever `nextFrame` returns failure — at the last index or on a
failed sequential read — the position is unchanged. -/
theorem C3_advance_failure_keeps_position (env : VideoFile) (s : PlayerState)
    (h : (nextFrame env s).1 = false) :
    (nextFrame env s).2.1.currentFrameNumber = s.currentFrameNumber := by
  by_cases h1 : s.currentFrameNumber ≥ s.totalFrames - 1
  · simp [nextFrame, h1]
  · by_cases h2 : env.readOK s.cap.pos
    · simp [nextFrame, h1, h2] at h
    · simp [nextFrame, h1, h2]

/-- C3 witness: a mid-stream read failure leaves position 3 in place. -/
theorem C3_advance_failure_keeps_position_witness :
    (nextFrame envUnreadable sAt3).2.1.currentFrameNumber =
      sAt3.currentFrameNumber :=
  C3_advance_failure_keeps_position envUnreadable sAt3 (by decide)

/-- C4: for any in-range target whose underlying seek-and-read succeeds,
`seekToFrame` returns success and `getCurrentFrame` immediately afterwards
returns the target. -/
theorem C4_seek_then_query (env : VideoFile) (s : PlayerState) (n : Int)
    (h0 : 0 ≤ n) (h1 : n < s.totalFrames) (hr : env.readOK n = true) :
    (seekToFrame env s n).1 = true ∧
    getCurrentFrame (seekToFrame env s n).2.1 = n := by
  have hc : ¬ (n < 0 ∨ n ≥ s.totalFrames) := by omega
  simp [seekToFrame, getCurrentFrame, hc, hr]

/-- C4 witness: seeking frame 4 of the all-good 10-frame file. -/
theorem C4_seek_then_query_witness :
    (seekToFrame env10 s10 4).1 = true ∧
    getCurrentFrame (seekToFrame env10 s10 4).2.1 = 4 :=
  C4_seek_then_query env10 s10 4 (by decide) (by decide) (by decide)

/-- C5: any out-of-range target — `-1` and `totalFrames` included — makes
`seekToFrame` fail, leave the whole state unchanged, and perform no decoder
call at all (empty trace: no underlying seek, no read). -/
theorem C5_seek_out_of_range (env : VideoFile) (s : PlayerState) (n : Int)
    (h : n < 0 ∨ s.totalFrames ≤ n) :
    (seekToFrame env s n).1 = false ∧ (seekToFrame env s n).2.1 = s ∧
    (seekToFrame env s n).2.2 = [] := by
  unfold seekToFrame
  rw [if_pos h]
  exact ⟨rfl, rfl, rfl⟩

/-- C5 witness: `seek(-1)` and, via `s10.totalFrames = 10`, `seek(10)`. -/
theorem C5_seek_out_of_range_witness :
    ((seekToFrame env10 s10 (-1)).1 = false ∧ (seekToFrame env10 s10 (-1)).2.1 = s10 ∧
      (seekToFrame env10 s10 (-1)).2.2 = []) ∧
    ((seekToFrame env10 s10 10).1 = false ∧ (seekToFrame env10 s10 10).2.1 = s10 ∧
      (seekToFrame env10 s10 10).2.2 = []) :=
  ⟨C5_seek_out_of_range env10 s10 (-1) (Or.inl (by decide)),
   C5_seek_out_of_range env10 s10 10 (Or.inr (by decide))⟩

/-- C6: at the jump-to-frame prompt of the playback loop, on a 10-frame video
whose read of frame 6 succeeds, console input "7" seeks to internal position
6, while inputs "11" and "abc" are rejected and leave the state unchanged. -/
theorem C6_jump_prompt (env : VideoFile) (s : PlayerState)
    (h10 : s.totalFrames = 10) (hr : env.readOK 6 = true) :
    ((jumpToFramePrompt env s "7").1.currentFrameNumber = 6 ∧
      (jumpToFramePrompt env s "7").1.currentFrame = some (env.content 6)) ∧
    (jumpToFramePrompt env s "11").1 = s ∧
    (jumpToFramePrompt env s "abc").1 = s := by
  have h7 : cinReadInt "7" = 7 := by decide
  have h11 : cinReadInt "11" = 11 := by decide
  have habc : cinReadInt "abc" = 0 := by decide
  refine ⟨?_, ?_, ?_⟩
  · simp [jumpToFramePrompt, h7, h10, seekToFrame, hr]
  · simp [jumpToFramePrompt, h11, h10]
  · simp [jumpToFramePrompt, habc, h10]

/-- C6 witness: the loaded 10-frame player. -/
theorem C6_jump_prompt_witness :
    ((jumpToFramePrompt env10 s10 "7").1.currentFrameNumber = 6 ∧
      (jumpToFramePrompt env10 s10 "7").1.currentFrame = some (env10.content 6)) ∧
    (jumpToFramePrompt env10 s10 "11").1 = s10 ∧
    (jumpToFramePrompt env10 s10 "abc").1 = s10 :=
  C6_jump_prompt env10 s10 (by decide) (by decide)

/-- C7: the held frame is overwritten (with the newly decoded image) on every
successful advance and seek, and a failed advance, retreat or seek leaves the
previously decoded image in place, stale but uncleared. -/
theorem C7_frame_overwrite_and_staleness (env : VideoFile) (s : PlayerState)
    (n : Int) :
    ((nextFrame env s).1 = true →
      (nextFrame env s).2.1.currentFrame = some (env.content s.cap.pos)) ∧
    ((nextFrame env s).1 = false →
      (nextFrame env s).2.1.currentFrame = s.currentFrame) ∧
    ((previousFrame env s).1 = false →
      (previousFrame env s).2.1.currentFrame = s.currentFrame) ∧
    ((seekToFrame env s n).1 = true →
      (seekToFrame env s n).2.1.currentFrame = some (env.content n)) ∧
    ((seekToFrame env s n).1 = false →
      (seekToFrame env s n).2.1.currentFrame = s.currentFrame) := by
  refine ⟨?_, ?_, ?_, ?_, ?_⟩
  · by_cases h1 : s.currentFrameNumber ≥ s.totalFrames - 1
    · simp [nextFrame, h1]
    · by_cases h2 : env.readOK s.cap.pos <;> simp [nextFrame, h1, h2]
  · by_cases h1 : s.currentFrameNumber ≥ s.totalFrames - 1
    · simp [nextFrame, h1]
    · by_cases h2 : env.readOK s.cap.pos <;> simp [nextFrame, h1, h2]
  · by_cases h1 : s.currentFrameNumber ≤ 0
    · simp [previousFrame, h1]
    · by_cases h2 : env.readOK (s.currentFrameNumber - 1) <;>
        simp [previousFrame, h1, h2]
  · by_cases h1 : n < 0 ∨ n ≥ s.totalFrames
    · simp [seekToFrame, h1]
    · by_cases h2 : env.readOK n <;> simp [seekToFrame, h1, h2]
  · by_cases h1 : n < 0 ∨ n ≥ s.totalFrames
    · simp [seekToFrame, h1]
    · by_cases h2 : env.readOK n <;> simp [seekToFrame, h1, h2]

/-- C7 witness: a successful advance and seek overwrite the frame; a failed
advance, retreat and seek keep the old image. -/
theorem C7_frame_overwrite_and_staleness_witness :
    ((nextFrame env10 s10).2.1.currentFrame = some (env10.content s10.cap.pos)) ∧
    ((nextFrame envUnreadable sAt3).2.1.currentFrame = sAt3.currentFrame) ∧
    ((previousFrame envUnreadable sAt3).2.1.currentFrame = sAt3.currentFrame) ∧
    ((seekToFrame env10 s10 4).2.1.currentFrame = some (env10.content 4)) ∧
    ((seekToFrame envUnreadable sAt3 4).2.1.currentFrame = sAt3.currentFrame) :=
  ⟨(C7_frame_overwrite_and_staleness env10 s10 0).1 (by decide),
   (C7_frame_overwrite_and_staleness envUnreadable sAt3 0).2.1 (by decide),
   (C7_frame_overwrite_and_staleness envUnreadable sAt3 0).2.2.1 (by decide),
   (C7_frame_overwrite_and_staleness env10 s10 4).2.2.2.1 (by decide),
   (C7_frame_overwrite_and_staleness envUnreadable sAt3 4).2.2.2.2 (by decide)⟩

/-- C8: after loading the all-good 10-frame file (position 0), nine
consecutive `nextFrame` calls all succeed, the position ends at 9, and a tenth
call fails. -/
theorem C8_nine_advances_then_stop :
    (loadVideo env10 initialState "ten.mp4").1 = true ∧
    (advanceResults env10 s10 9).1 = List.replicate 9 true ∧
    (advanceResults env10 s10 9).2.currentFrameNumber = 9 ∧
    (nextFrame env10 (advanceResults env10 s10 9).2).1 = false := by
  refine ⟨rfl, by decide, by decide, by decide⟩

/-- C9: at position 0, `previousFrame` fails, leaves the whole state
unchanged, and performs no decoder call (no underlying seek or read). -/
theorem C9_retreat_at_start (env : VideoFile) (s : PlayerState)
    (h : s.currentFrameNumber = 0) :
    (previousFrame env s).1 = false ∧ (previousFrame env s).2.1 = s ∧
    (previousFrame env s).2.2 = [] := by
  have h0 : s.currentFrameNumber ≤ 0 := by omega
  simp [previousFrame, h0]

/-- C9 witness: the freshly loaded player stands at position 0. -/
theorem C9_retreat_at_start_witness :
    (previousFrame env10 s10).1 = false ∧ (previousFrame env10 s10).2.1 = s10 ∧
    (previousFrame env10 s10).2.2 = [] :=
  C9_retreat_at_start env10 s10 (by decide)

/-- No navigation operation changes the stored total frame count. -/
theorem applyOp_totalFrames (env : VideoFile) (s : PlayerState) (op : NavOp) :
    (applyOp env s op).totalFrames = s.totalFrames := by
  cases op with
  | next =>
      by_cases h1 : s.currentFrameNumber ≥ s.totalFrames - 1
      · simp [applyOp, nextFrame, h1]
      · by_cases h2 : env.readOK s.cap.pos <;> simp [applyOp, nextFrame, h1, h2]
  | prev =>
      by_cases h1 : s.currentFrameNumber ≤ 0
      · simp [applyOp, previousFrame, h1]
      · by_cases h2 : env.readOK (s.currentFrameNumber - 1) <;>
          simp [applyOp, previousFrame, h1, h2]
  | seek n =>
      by_cases h1 : n < 0 ∨ n ≥ s.totalFrames
      · simp [applyOp, seekToFrame, h1]
      · by_cases h2 : env.readOK n <;> simp [applyOp, seekToFrame, h1, h2]

/-- Each navigation operation preserves `0 ≤ position ≤ totalFrames - 1`. -/
theorem applyOp_bounds (env : VideoFile) (s : PlayerState) (op : NavOp)
    (h0 : 0 ≤ s.currentFrameNumber)
    (h1 : s.currentFrameNumber ≤ s.totalFrames - 1) :
    0 ≤ (applyOp env s op).currentFrameNumber ∧
    (applyOp env s op).currentFrameNumber ≤ (applyOp env s op).totalFrames - 1 := by
  rw [applyOp_totalFrames]
  cases op with
  | next =>
      by_cases hc : s.currentFrameNumber ≥ s.totalFrames - 1
      · simp [applyOp, nextFrame, hc]; omega
      · by_cases hrd : env.readOK s.cap.pos <;>
          simp [applyOp, nextFrame, hc, hrd] <;> omega
  | prev =>
      by_cases hc : s.currentFrameNumber ≤ 0
      · simp [applyOp, previousFrame, hc]; omega
      · by_cases hrd : env.readOK (s.currentFrameNumber - 1) <;>
          simp [applyOp, previousFrame, hc, hrd] <;> omega
  | seek n =>
      by_cases hc : n < 0 ∨ n ≥ s.totalFrames
      · simp [applyOp, seekToFrame, hc]; omega
      · by_cases hrd : env.readOK n <;>
          simp [applyOp, seekToFrame, hc, hrd] <;> omega

/-- Sequences of navigation operations preserve the position bounds. -/
theorem runOps_bounds (env : VideoFile) (ops : List NavOp) :
    ∀ s : PlayerState, 0 ≤ s.currentFrameNumber →
      s.currentFrameNumber ≤ s.totalFrames - 1 →
      0 ≤ (runOps env s ops).currentFrameNumber ∧
      (runOps env s ops).currentFrameNumber ≤ (runOps env s ops).totalFrames - 1 := by
  induction ops with
  | nil => intro s h0 h1; exact ⟨h0, h1⟩
  | cons op rest ih =>
      intro s h0 h1
      have hstep := applyOp_bounds env s op h0 h1
      exact ih (applyOp env s op) hstep.1 hstep.2

/-- A successful load leaves the player at position 0. -/
theorem loadVideo_success_position (env : VideoFile) (s : PlayerState)
    (fn : String) (h : (loadVideo env s fn).1 = true) :
    (loadVideo env s fn).2.1.currentFrameNumber = 0 := by
  by_cases hopen : env.openOK
  · by_cases hread : env.readOK 0
    · simp [loadVideo, hopen, hread]
    · simp [loadVideo, hopen, hread] at h ⊢
  · simp [loadVideo, hopen] at h

/-- C10 (implicit invariant): after a successful load reporting at least one
frame, every finite sequence of `nextFrame`, `previousFrame` and
`seekToFrame` calls — whichever of them succeed or fail — keeps the position
inside `[0, totalFrames - 1]`. -/
theorem C10_position_invariant (env : VideoFile) (fn : String)
    (ops : List NavOp)
    (hload : (loadVideo env initialState fn).1 = true)
    (htf : 1 ≤ (loadVideo env initialState fn).2.1.totalFrames) :
    0 ≤ (runOps env (loadVideo env initialState fn).2.1 ops).currentFrameNumber ∧
    (runOps env (loadVideo env initialState fn).2.1 ops).currentFrameNumber ≤
      (runOps env (loadVideo env initialState fn).2.1 ops).totalFrames - 1 := by
  have hpos := loadVideo_success_position env initialState fn hload
  exact runOps_bounds env ops (loadVideo env initialState fn).2.1
    (by omega) (by omega)

/-- C10 witness: a mixed success-and-failure walk over the 10-frame file. -/
theorem C10_position_invariant_witness :
    0 ≤ (runOps env10 (loadVideo env10 initialState "ten.mp4").2.1
          [NavOp.next, NavOp.prev, NavOp.prev, NavOp.seek 5, NavOp.seek 99]).currentFrameNumber ∧
    (runOps env10 (loadVideo env10 initialState "ten.mp4").2.1
          [NavOp.next, NavOp.prev, NavOp.prev, NavOp.seek 5, NavOp.seek 99]).currentFrameNumber ≤
      (runOps env10 (loadVideo env10 initialState "ten.mp4").2.1
          [NavOp.next, NavOp.prev, NavOp.prev, NavOp.seek 5, NavOp.seek 99]).totalFrames - 1 :=
  C10_position_invariant env10 "ten.mp4"
    [NavOp.next, NavOp.prev, NavOp.prev, NavOp.seek 5, NavOp.seek 99]
    (by decide) (by decide)

end VideoPlayerModel
